import Mathlib

/-!
Shallow embedding of the BetterForward relay bot (main.py and
src/handlers/command_handler.py, src/handlers/callback_handler.py).

The Persistent Store (sqlite tables) is modelled as lists of rows; the
messaging capability calls are modelled as an emitted `Effect` trace plus
an environment record carrying the values the remote side would return
(fresh forum-thread ids, message ids, success flags).  `SELECT ... LIMIT 1`
becomes `List.find?`, `DELETE ... WHERE` becomes `List.filter`, `INSERT`
becomes list append.  Python exceptions that the handlers do not catch are
modelled with `Except String`; exceptions that are caught and swallowed
(`ApiTelegramException` around best-effort remote cleanup) do not alter
control flow, exactly as in the source.
-/

/-- A row of the `topics` table: `topics(user_id, thread_id, ban)`. -/
structure Topic where
  user_id : Int
  thread_id : Int
  ban : Bool
deriving Repr, DecidableEq

/-- A row of the `messages` table:
`messages(received_id, forwarded_id, topic_id, in_group)`. -/
structure MessagePair where
  received_id : Int
  forwarded_id : Int
  topic_id : Int
  in_group : Bool
deriving Repr, DecidableEq

/-- A row of the `auto_response` table: `auto_response(key, value, topic_action)`.
`topic_action` is a Python int (written through `int(...)`), so it is kept as
`Int` and truthiness is `≠ 0`. -/
structure AutoResponse where
  key : String
  value : String
  topic_action : Int
deriving Repr, DecidableEq

/-- The persistent store: the sqlite tables the claims touch. -/
structure Store where
  topics : List Topic
  messages : List MessagePair
  auto_response : List AutoResponse
  verified_users : List Int
deriving Repr, DecidableEq

/-- Handler-visible state: the store plus the in-memory lookup cache,
modelled as the list of keys currently present. -/
structure TState where
  store : Store
  cache : List String
deriving Repr, DecidableEq

/-- Message content, one constructor per `content_type` the bot registers. -/
inductive Content where
  | text (t : String)
  | photo (fileId : String) (caption : Option String)
  | sticker (fileId : String)
  | video (fileId : String) (caption : Option String)
  | document (fileId : String) (caption : Option String)
deriving Repr, DecidableEq

/-- `message.from_user`. -/
structure FromUser where
  id : Int
  first_name : String
  last_name : Option String
  username : Option String
deriving Repr, DecidableEq

/-- The fields of a telebot `Message` the handlers read. -/
structure Msg where
  message_id : Int
  chat_id : Int
  message_thread_id : Option Int
  from_user : FromUser
  content : Content
deriving Repr, DecidableEq

/-- `message.text`: `None` unless the message is plain text. -/
def Msg.text (m : Msg) : Option String :=
  match m.content with
  | .text t => some t
  | _ => none

/-- `message.content_type`. -/
def Msg.content_type (m : Msg) : String :=
  match m.content with
  | .text _ => "text"
  | .photo _ _ => "photo"
  | .sticker _ => "sticker"
  | .video _ _ => "video"
  | .document _ _ => "document"

/-- Outbound calls to the messaging capability and the logger, recorded as a
trace in the order the handler issues them. -/
inductive Effect where
  | sendMessage (chat : Int) (thread : Option Int) (text : String)
  | replyTo (text : String)
  | replyConfirmTerminate (thread_id user_id : Option Int)
  | forwardMessage (toChat fromChat : Int) (thread : Option Int) (msgId : Int)
  | pinChatMessage (chat : Int) (msgId : Int)
  | createForumTopic (chat : Int) (threadName : String)
  | deleteForumTopic (chat thread : Int) (ok : Bool)
  | closeForumTopic (chat thread : Int)
  | editMessageText (chat msgId : Int) (text : String)
  | setMessageReaction (chat msgId : Int) (reaction : List String)
  | deleteMessage (chat msgId : Int)
  | sendPhoto (chat : Int) (fileId : String) (caption : Option String)
  | sendSticker (chat : Int) (fileId : String)
  | sendVideo (chat : Int) (fileId : String) (caption : Option String)
  | sendDocument (chat : Int) (fileId : String) (caption : Option String)
  | answerCallbackQuery
  | setUserVerified (uid : Int)
  | adminDelegate (methodName : String)
  | logInfo (text : String)
  | logError (text : String)
deriving Repr, DecidableEq

namespace Main

/-- Values the messaging capability returns to `handle_messages`:
`createResult` is the `message_thread_id` of `create_forum_topic` (or `none`
when that call raises), `identityMsgId` the id of the identity-card message
returned by `send_message`, and `forwardOk` whether `forward_message`
succeeds. -/
structure MsgEnv where
  createResult : Option Int
  identityMsgId : Int
  forwardOk : Bool
deriving Repr, DecidableEq

/-- The pinned identity card text built at thread creation
(main.py lines 220-225). -/
def identityCard (u : FromUser) : String :=
  let username := match u.username with
    | none => "Not set"
    | some un => "@" ++ un
  let last_name := match u.last_name with
    | none => ""
    | some ln => " " ++ ln
  "User ID: " ++ toString u.id ++ "\n" ++
    "Full Name: " ++ u.first_name ++ last_name ++ "\n" ++
    "Username: " ++ username ++ "\n"

/-- The thread lookup/creation step of `handle_messages` (main.py lines
204-227): look up `topics` by user_id; if absent create a forum thread,
insert one Topic row (ban defaults to 0), post the identity card into the
new thread and pin it.  Returns `none` when `create_forum_topic` raises,
in which case the handler logs and returns. -/
def resolve_or_create_thread (g : Int) (env : MsgEnv) (store : Store)
    (u : FromUser) : Option (Store × Int × List Effect) :=
  match store.topics.find? (fun t => t.user_id == u.id) with
  | some t => some (store, t.thread_id, [])
  | none =>
    match env.createResult with
    | none => none
    | some newId =>
      let store2 := { store with topics := store.topics ++ [⟨u.id, newId, false⟩] }
      some (store2, newId,
        [Effect.logInfo ("Creating a new thread for user " ++ toString u.id),
         Effect.createForumTopic g u.first_name,
         Effect.sendMessage g (some newId) (identityCard u),
         Effect.pinChatMessage g env.identityMsgId])

/-- The forwarding tail of the user-side branch of `handle_messages`
(main.py lines 203-239): resolve/create the thread, forward the message
(falling back to a threadless forward plus notices when the first forward
raises `ApiTelegramException`), then echo the auto-response into the thread
when one with truthy `topic_action` fired. -/
def forward_to_group (g : Int) (env : MsgEnv) (store : Store) (m : Msg)
    (echo : Option String) : Store × List Effect :=
  match resolve_or_create_thread g env store m.from_user with
  | none => (store, [Effect.logError "create_forum_topic failed"])
  | some (store2, tid, effs) =>
    let fwd :=
      if env.forwardOk then
        [Effect.forwardMessage g m.chat_id (some tid) m.message_id]
      else
        [Effect.logError ("Failed to forward message from user " ++ toString m.from_user.id),
         Effect.sendMessage g none
           ("Failed to forward message from user " ++ toString m.from_user.id),
         Effect.forwardMessage g m.chat_id none m.message_id]
    let echoEffs :=
      match echo with
      | some v => [Effect.sendMessage g (some tid) ("[Auto Response]" ++ v)]
      | none => []
    (store2, effs ++ fwd ++ echoEffs)

/-- `TGBot.handle_messages` (main.py lines 182-266).  `g` is the group id. -/
def handle_messages (g : Int) (env : MsgEnv) (store : Store) (m : Msg) :
    Store × List Effect :=
  if m.message_thread_id.isNone && m.chat_id == g then
    (store, [])
  else if m.chat_id != g then
    let logRecv := Effect.logInfo ("Received message from " ++ toString m.from_user.id)
    let ar : Option AutoResponse :=
      match m.text with
      | none => none
      | some t => store.auto_response.find? (fun r => r.key == t)
    match ar with
    | some r =>
      let sendAr := Effect.sendMessage m.chat_id none r.value
      if r.topic_action == 0 then
        (store, [logRecv, sendAr])
      else
        let res := forward_to_group g env store m (some r.value)
        (res.1, logRecv :: sendAr :: res.2)
    | none =>
      let res := forward_to_group g env store m none
      (res.1, logRecv :: res.2)
  else
    match m.message_thread_id with
    | none => (store, [])
    | some tid =>
      match store.topics.find? (fun t => t.thread_id == tid) with
      | some t =>
        let eff :=
          match m.content with
          | .photo fid cap => Effect.sendPhoto t.user_id fid cap
          | .text txt => Effect.sendMessage t.user_id none txt
          | .sticker fid => Effect.sendSticker t.user_id fid
          | .video fid cap => Effect.sendVideo t.user_id fid cap
          | .document fid cap => Effect.sendDocument t.user_id fid cap
        (store, [eff])
      | none =>
        (store,
         [Effect.sendMessage g (some tid) "Chat not found, please remove this topic manually",
          Effect.closeForumTopic g tid])

end Main

namespace CommandHandler

/-- Python truthiness of an optional int value (`if user_id and thread_id:`):
`None` and `0` are falsy. -/
def truthy : Option Int → Bool
  | none => false
  | some n => n != 0

/-- `CommandHandler.check_valid_chat`: message is in the group and not inside
a topic thread. -/
def check_valid_chat (g : Int) (m : Msg) : Bool :=
  m.chat_id == g && m.message_thread_id.isNone

/-- The shared tail of `CommandHandler.terminate_thread` (command_handler.py
lines 138-148): once both a truthy user_id and a truthy thread_id are at
hand, drop both cache keys, attempt the remote forum-topic deletion (an
`ApiTelegramException`, recorded as `remoteOk = false`, is swallowed) and
delete the topic's message pairs.  The final `logger.info` runs on every
path. -/
def terminate_finish (g : Int) (st : TState) (uidv tidv : Option Int)
    (remoteOk : Bool) : TState × List Effect :=
  match uidv, tidv with
  | some uv, some tv =>
    if uv != 0 && tv != 0 then
      let cache2 := (st.cache.filter (fun k => k ≠ s!"chat_{uv}_threadid")).filter
        (fun k => k ≠ s!"threadid_{tv}_userid")
      let store2 := { st.store with
        messages := st.store.messages.filter (fun p => p.topic_id != tv) }
      ({ store := store2, cache := cache2 },
       [Effect.deleteForumTopic g tv remoteOk,
        Effect.logInfo "Terminating thread"])
    else (st, [Effect.logInfo "Terminating thread"])
  | _, _ => (st, [Effect.logInfo "Terminating thread"])

/-- `CommandHandler.terminate_thread` (command_handler.py lines 119-148):
resolve the missing identifier through the `topics` table, delete the Topic
row, then run the cleanup tail. -/
def terminate_thread (g : Int) (st : TState) (thread_id user_id : Option Int)
    (remoteOk : Bool) : TState × List Effect :=
  match thread_id with
  | some tid =>
    (match st.store.topics.find? (fun t => t.thread_id == tid) with
     | some t =>
       let st2 := { st with store := { st.store with
         topics := st.store.topics.filter (fun x => x.thread_id != tid) } }
       terminate_finish g st2 (some t.user_id) (some tid) remoteOk
     | none => terminate_finish g st user_id (some tid) remoteOk)
  | none =>
    match user_id with
    | some uid =>
      (match st.store.topics.find? (fun t => t.user_id == uid) with
       | some t =>
         let st2 := { st with store := { st.store with
           topics := st.store.topics.filter (fun x => x.user_id != uid) } }
         terminate_finish g st2 (some uid) (some t.thread_id) remoteOk
       | none => terminate_finish g st (some uid) none remoteOk)
    | none => terminate_finish g st none none remoteOk

/-- The resolution tail of `CommandHandler.handle_terminate` (lines 165-182):
reject the main thread (`thread_id == 1`), otherwise offer the
confirm/cancel keyboard.  No store mutation happens here; the actual
termination runs from the `confirm_terminate` callback. -/
def terminate_prompt (st : TState) (thread_id user_id : Option Int) :
    TState × List Effect :=
  if thread_id == some 1 then
    (st, [Effect.replyTo "Cannot terminate main thread"])
  else
    (st, [Effect.replyConfirmTerminate thread_id user_id])

/-- `CommandHandler.handle_terminate` (command_handler.py lines 150-184).
`isAdmin` is the result of the `get_chat_member(...).status` check.  A
non-numeric `/terminate` argument raises `ValueError` in the source
(`int(msg_split[1])`), modelled as `Except.error`. -/
def handle_terminate (g : Int) (st : TState) (m : Msg) (isAdmin : Bool) :
    Except String (TState × List Effect) :=
  if m.chat_id == g && isAdmin then
    match m.message_thread_id with
    | none =>
      (match m.text with
       | none => .error "AttributeError: NoneType has no split"
       | some txt =>
         let msg_split := txt.splitOn " "
         if msg_split.length != 2 then
           .ok (st, [Effect.replyTo "Invalid command\nCorrect usage:```\n/terminate <user ID>```"])
         else
           match (msg_split.get? 1).bind String.toInt? with
           | none => .error "ValueError: invalid literal for int"
           | some uid => .ok (terminate_prompt st none (some uid)))
    | some tid => .ok (terminate_prompt st (some tid) none)
  else
    .ok (st, [Effect.sendMessage m.chat_id none "This command is only available to admin users."])

/-- `CommandHandler.handle_edit` (command_handler.py lines 253-279).  The
source computes `message.text + suffix` before checking `content_type`; when
`message.text` is `None` (any non-text message) Python raises `TypeError`,
modelled as `Except.error`. -/
def handle_edit (g : Int) (store : Store) (m : Msg) (edit_time : String) :
    Except String (List Effect) :=
  if check_valid_chat g m then .ok []
  else
    match store.messages.find?
        (fun p => p.received_id == m.message_id && p.in_group == (m.chat_id == g)) with
    | none => .ok []
    | some pr =>
      match m.text with
      | none => .error "TypeError: can only concatenate str (not NoneType)"
      | some t =>
        let edited_text := t ++ "\n\n(Edited at " ++ edit_time ++ ")"
        if m.chat_id == g then
          match store.topics.find? (fun x => x.thread_id == pr.topic_id) with
          | none => .ok []
          | some tp =>
            if m.content_type == "text" then
              .ok [Effect.editMessageText tp.user_id pr.forwarded_id edited_text]
            else .ok []
        else
          if m.content_type == "text" then
            .ok [Effect.editMessageText g pr.forwarded_id edited_text]
          else .ok []

/-- The pair lookup of `CommandHandler.handle_reaction` (lines 285-293): the
source queries `forwarded_id` first and falls back to `received_id` on a
miss; the result is `(topic_id, counterpart message id)`. -/
def reaction_lookup (store : Store) (message_id : Int) : Option (Int × Int) :=
  match store.messages.find? (fun p => p.forwarded_id == message_id) with
  | some p => some (p.topic_id, p.received_id)
  | none =>
    match store.messages.find? (fun p => p.received_id == message_id) with
    | some p => some (p.topic_id, p.forwarded_id)
    | none => none

/-- Modelled from the spec: the pair lookup order the spec documents for
reaction propagation, searching `received_id` first and falling back to
`forwarded_id` — to be compared with `reaction_lookup`, which embeds the
source. -/
def reaction_lookup_received_first (store : Store) (message_id : Int) :
    Option (Int × Int) :=
  match store.messages.find? (fun p => p.received_id == message_id) with
  | some p => some (p.topic_id, p.forwarded_id)
  | none =>
    match store.messages.find? (fun p => p.forwarded_id == message_id) with
    | some p => some (p.topic_id, p.received_id)
    | none => none

/-- `CommandHandler.handle_reaction` (command_handler.py lines 281-303):
find the pair, resolve the counterpart chat (the topic's user for group-side
events, the group otherwise) and set the last reaction of the event's list
(or clear when the list is empty). -/
def handle_reaction (g : Int) (store : Store) (chat_id message_id : Int)
    (new_reaction : List String) : List Effect :=
  match reaction_lookup store message_id with
  | none => []
  | some (topic_id, target) =>
    let chat : Option Int :=
      if chat_id == g then
        match store.topics.find? (fun t => t.thread_id == topic_id) with
        | none => none
        | some t => some t.user_id
      else some g
    match chat with
    | none => []
    | some c =>
      [Effect.setMessageReaction c target
        (match new_reaction.getLast? with
         | some r => [r]
         | none => [])]

end CommandHandler

/-- The decoded JSON object of a callback payload: `action` is present only
when the object has an `"action"` key; the remaining fields mirror the
`data.get(...)`/`data[...]` accesses the handler performs. -/
structure CData where
  action : Option String
  id : Option Int
  user_id : Option Int
  thread_id : Option Int
  value : Option Bool
  page : Option Int
deriving Repr, DecidableEq

/-- The raw `call.data` string as the handler's two guards classify it: the
literal `"null"`, a string `json.loads` rejects, or a decoded object. -/
inductive Payload where
  | nullStr
  | badJson (raw : String)
  | json (d : CData)
deriving Repr, DecidableEq

namespace CallbackHandler

/-- The action names `_handle_admin_callback` dispatches on
(callback_handler.py lines 67-136). -/
def knownActions : List String :=
  ["menu", "auto_reply", "set_auto_response_time", "start_add_auto_reply",
   "add_auto_reply", "manage_auto_reply", "select_auto_reply",
   "delete_auto_reply", "ban_user", "unban_user", "select_ban_user",
   "default_msg", "edit_default_msg", "empty_default_msg",
   "captcha_settings", "set_captcha", "broadcast_message",
   "confirm_broadcast", "cancel_broadcast", "time_zone_settings",
   "confirm_terminate", "cancel_terminate"]

/-- `CallbackHandler._handle_admin_callback` (callback_handler.py lines
61-138).  Delegations to the admin handler (whose module is not part of the
modelled core) are recorded as `adminDelegate` effects.  `data["value"]` on
a payload without a `"value"` key raises `KeyError`, modelled as
`Except.error`. -/
def admin_callback (g msg_id : Int) (action : String) (d : CData) :
    Except String (List Effect) :=
  let invalid : List Effect :=
    [Effect.deleteMessage g msg_id, Effect.sendMessage g none "Invalid action"]
  if action = "menu" then .ok [Effect.adminDelegate "menu"]
  else if action = "auto_reply" then .ok [Effect.adminDelegate "auto_reply_menu"]
  else if action = "set_auto_response_time" then
    .ok [Effect.adminDelegate "handle_auto_response_time_callback"]
  else if action = "start_add_auto_reply" then
    .ok [Effect.adminDelegate "add_auto_response"]
  else if action = "add_auto_reply" then
    .ok [Effect.adminDelegate "process_add_auto_reply"]
  else if action = "manage_auto_reply" then
    .ok [Effect.adminDelegate "manage_auto_reply"]
  else if action = "select_auto_reply" then
    .ok (match d.id with
         | none => invalid
         | some _ => [Effect.adminDelegate "select_auto_reply"])
  else if action = "delete_auto_reply" then
    .ok (match d.id with
         | none => invalid
         | some _ => [Effect.adminDelegate "delete_auto_reply"])
  else if action = "ban_user" then .ok [Effect.adminDelegate "manage_ban_user"]
  else if action = "unban_user" then
    .ok (match d.id with
         | none => invalid
         | some _ => [Effect.adminDelegate "unban_user"])
  else if action = "select_ban_user" then
    .ok (match d.id with
         | none => invalid
         | some _ => [Effect.adminDelegate "select_ban_user"])
  else if action = "default_msg" then .ok [Effect.adminDelegate "default_msg_menu"]
  else if action = "edit_default_msg" then .ok [Effect.adminDelegate "edit_default_msg"]
  else if action = "empty_default_msg" then .ok [Effect.adminDelegate "empty_default_msg"]
  else if action = "captcha_settings" then .ok [Effect.adminDelegate "captcha_settings_menu"]
  else if action = "set_captcha" then
    match d.value with
    | none => .error "KeyError: value"
    | some _ => .ok [Effect.adminDelegate "set_captcha"]
  else if action = "broadcast_message" then .ok [Effect.adminDelegate "broadcast_message"]
  else if action = "confirm_broadcast" then
    .ok [Effect.deleteMessage g msg_id, Effect.adminDelegate "confirm_broadcast_message"]
  else if action = "cancel_broadcast" then
    .ok [Effect.deleteMessage g msg_id,
         Effect.sendMessage g none "Broadcast cancelled",
         Effect.adminDelegate "cancel_broadcast"]
  else if action = "time_zone_settings" then
    .ok [Effect.adminDelegate "time_zone_settings_menu"]
  else if action = "confirm_terminate" then
    .ok [Effect.adminDelegate "terminate_thread"]
  else if action = "cancel_terminate" then
    .ok [Effect.editMessageText g msg_id "Operation cancelled"]
  else .ok [Effect.logError ("Invalid action received" ++ action)]

/-- `CallbackHandler.handle_callback_query` (callback_handler.py lines
20-59).  `chat_id`/`msg_id` are `call.message.chat.id`/`.message_id`.
`data["action"]` on an object without the key raises `KeyError`. -/
def handle_callback_query (g chat_id msg_id : Int) (p : Payload) :
    Except String (List Effect) :=
  match p with
  | .nullStr => .ok [Effect.logError "Invalid callback data received"]
  | .badJson _ => .ok [Effect.logError "Invalid JSON data received"]
  | .json d =>
    match d.action with
    | none => .error "KeyError: action"
    | some act =>
      let pre : List Effect := [Effect.answerCallbackQuery]
      if act = "verify_button" then
        match d.user_id with
        | some uid =>
          if uid != 0 then
            .ok (pre ++
              [Effect.setUserVerified uid, Effect.answerCallbackQuery,
               Effect.sendMessage uid none "Verification successful, you can now send messages",
               Effect.deleteMessage chat_id msg_id])
          else
            .ok (pre ++
              [Effect.answerCallbackQuery,
               Effect.sendMessage chat_id none "Invalid user ID"])
        | none =>
          .ok (pre ++
            [Effect.answerCallbackQuery,
             Effect.sendMessage chat_id none "Invalid user ID"])
      else if chat_id != g then .ok pre
      else
        (admin_callback g msg_id act d).map (fun es => pre ++ es)

end CallbackHandler

theorem find?_append_of_none {α : Type} (p : α → Bool) (l₁ l₂ : List α)
    (h : l₁.find? p = none) : (l₁ ++ l₂).find? p = l₂.find? p := by
  simp [List.find?_append, h]

theorem find?_filter_of_none {α : Type} (p q : α → Bool) (l : List α)
    (h : ∀ x ∈ l, p x = true → q x = true) :
    (l.filter (fun x => !q x)).find? p = none := by
  rw [List.find?_eq_none]
  intro x hx hpx
  rw [List.mem_filter] at hx
  have hq := h x hx.1 hpx
  simp [hq] at hx

theorem topics_find?_user_after_thread_filter (l : List Topic) (uid T : Int)
    (h : ∀ x ∈ l, x.user_id = uid → x.thread_id = T) :
    (l.filter (fun x => x.thread_id != T)).find? (fun x => x.user_id == uid) = none := by
  rw [List.find?_eq_none]
  intro x hx hpx
  rw [List.mem_filter] at hx
  have hq := h x hx.1 (by simpa using hpx)
  simp [hq] at hx

theorem terminate_finish_topics (g : Int) (st : TState) (uidv tidv : Option Int)
    (rok : Bool) :
    ((CommandHandler.terminate_finish g st uidv tidv rok).1).store.topics =
      st.store.topics := by
  unfold CommandHandler.terminate_finish
  cases uidv with
  | none => rfl
  | some uv =>
    cases tidv with
    | none => rfl
    | some tv => dsimp only; split <;> rfl

/-- Sample data shared by the concrete witness instantiations. -/
def sampleUser : FromUser := ⟨42, "Alice", none, some "alice"⟩

def sampleEnv : Main.MsgEnv := ⟨some 7, 99, true⟩

def emptyStore : Store := ⟨[], [], [], []⟩

/-- Claim C1: for every user_id, repeated calls of the thread
lookup/creation step of `handle_messages` return the same thread_id: an
existing `topics` row for the user is reused unchanged, and only when none
exists is a forum thread created, a single Topic row appended, and the
identity card (user id, full name, username) posted and pinned in the new
thread; any later call then returns the same thread_id without creating
anything. -/
theorem c1_resolve_or_create_thread_idempotent (g : Int) (env : Main.MsgEnv)
    (store : Store) (u : FromUser) :
    (∀ t, store.topics.find? (fun x => x.user_id == u.id) = some t →
      Main.resolve_or_create_thread g env store u = some (store, t.thread_id, [])) ∧
    (∀ nid, store.topics.find? (fun x => x.user_id == u.id) = none →
      env.createResult = some nid →
      Main.resolve_or_create_thread g env store u =
        some ({ store with topics := store.topics ++ [⟨u.id, nid, false⟩] }, nid,
          [Effect.logInfo ("Creating a new thread for user " ++ toString u.id),
           Effect.createForumTopic g u.first_name,
           Effect.sendMessage g (some nid) (Main.identityCard u),
           Effect.pinChatMessage g env.identityMsgId])) ∧
    (∀ s2 tid effs env2,
      Main.resolve_or_create_thread g env store u = some (s2, tid, effs) →
      Main.resolve_or_create_thread g env2 s2 u = some (s2, tid, [])) := by
  refine ⟨?_, ?_, ?_⟩
  · intro t h
    simp [Main.resolve_or_create_thread, h]
  · intro nid h hc
    simp [Main.resolve_or_create_thread, h, hc]
  · intro s2 tid effs env2 h
    unfold Main.resolve_or_create_thread at h ⊢
    cases hf : store.topics.find? (fun x => x.user_id == u.id) with
    | some t =>
      rw [hf] at h
      simp only [Option.some.injEq, Prod.mk.injEq] at h
      obtain ⟨rfl, rfl, rfl⟩ := h
      simp [hf]
    | none =>
      rw [hf] at h
      cases hc : env.createResult with
      | none => rw [hc] at h; exact absurd h (by simp)
      | some nid =>
        rw [hc] at h
        simp only [Option.some.injEq, Prod.mk.injEq] at h
        obtain ⟨rfl, rfl, rfl⟩ := h
        rw [find?_append_of_none _ _ _ hf]
        simp

/-- Witness for C1 at a concrete first contact followed by a second call. -/
theorem c1_witness :
    (Main.resolve_or_create_thread (-100) sampleEnv emptyStore sampleUser =
      some ({ emptyStore with topics := emptyStore.topics ++ [⟨sampleUser.id, 7, false⟩] }, 7,
        [Effect.logInfo ("Creating a new thread for user " ++ toString sampleUser.id),
         Effect.createForumTopic (-100) sampleUser.first_name,
         Effect.sendMessage (-100) (some 7) (Main.identityCard sampleUser),
         Effect.pinChatMessage (-100) sampleEnv.identityMsgId])) ∧
    (Main.resolve_or_create_thread (-100) ⟨some 8, 123, true⟩
        { emptyStore with topics := emptyStore.topics ++ [⟨sampleUser.id, 7, false⟩] } sampleUser =
      some ({ emptyStore with topics := emptyStore.topics ++ [⟨sampleUser.id, 7, false⟩] }, 7, [])) := by
  constructor
  · exact (c1_resolve_or_create_thread_idempotent (-100) sampleEnv emptyStore
      sampleUser).2.1 7 (by decide) (by decide)
  · exact (c1_resolve_or_create_thread_idempotent (-100) sampleEnv emptyStore
      sampleUser).2.2 _ 7 _ ⟨some 8, 123, true⟩
      ((c1_resolve_or_create_thread_idempotent (-100) sampleEnv emptyStore
        sampleUser).2.1 7 (by decide) (by decide))

/-- Claim C2: an inbound user message whose exact text matches an
auto-response rule key gets the canned response sent to the user
immediately; with `topic_action = 0` the forward to the group is entirely
suppressed (no store mutation, no further effect), and with a truthy
`topic_action` the message is forwarded as normal and the response text,
prefixed with "[Auto Response]", is additionally posted into the user's
group thread. -/
theorem c2_auto_response_gate (g : Int) (env : Main.MsgEnv) (store : Store)
    (m : Msg) (k : String) (r : AutoResponse)
    (hchat : m.chat_id ≠ g) (htext : m.text = some k)
    (hfind : store.auto_response.find? (fun x => x.key == k) = some r) :
    (r.topic_action = 0 →
      Main.handle_messages g env store m =
        (store, [Effect.logInfo ("Received message from " ++ toString m.from_user.id),
                 Effect.sendMessage m.chat_id none r.value])) ∧
    (r.topic_action ≠ 0 → env.forwardOk = true →
      ∀ s2 tid effs,
        Main.resolve_or_create_thread g env store m.from_user = some (s2, tid, effs) →
        Main.handle_messages g env store m =
          (s2, Effect.logInfo ("Received message from " ++ toString m.from_user.id) ::
               Effect.sendMessage m.chat_id none r.value ::
               (effs ++ [Effect.forwardMessage g m.chat_id (some tid) m.message_id] ++
                [Effect.sendMessage g (some tid) ("[Auto Response]" ++ r.value)]))) := by
  constructor
  · intro h0
    simp [Main.handle_messages, htext, hfind, hchat, h0]
  · intro h0 hfw s2 tid effs hres
    simp [Main.handle_messages, Main.forward_to_group, htext, hfind, hchat, h0,
      hres, hfw]

/-- Witness for C2: a suppressing rule and a forwarding rule fired on
concrete messages. -/
theorem c2_witness :
    (Main.handle_messages (-100) sampleEnv ⟨[], [], [⟨"hello", "hi", 0⟩], []⟩
        ⟨500, 42, none, sampleUser, .text "hello"⟩ =
      (⟨[], [], [⟨"hello", "hi", 0⟩], []⟩,
       [Effect.logInfo ("Received message from " ++ toString (42 : Int)),
        Effect.sendMessage 42 none "hi"])) ∧
    (Main.handle_messages (-100) sampleEnv ⟨[], [], [⟨"ping", "pong", 1⟩], []⟩
        ⟨500, 42, none, sampleUser, .text "ping"⟩ =
      (⟨[⟨42, 7, false⟩], [], [⟨"ping", "pong", 1⟩], []⟩,
       Effect.logInfo ("Received message from " ++ toString (42 : Int)) ::
       Effect.sendMessage 42 none "pong" ::
       ([Effect.logInfo ("Creating a new thread for user " ++ toString (42 : Int)),
         Effect.createForumTopic (-100) "Alice",
         Effect.sendMessage (-100) (some 7) (Main.identityCard sampleUser),
         Effect.pinChatMessage (-100) 99] ++
        [Effect.forwardMessage (-100) 42 (some 7) 500] ++
        [Effect.sendMessage (-100) (some 7) ("[Auto Response]" ++ "pong")]))) := by
  constructor
  · exact (c2_auto_response_gate (-100) sampleEnv ⟨[], [], [⟨"hello", "hi", 0⟩], []⟩
      ⟨500, 42, none, sampleUser, .text "hello"⟩ "hello" ⟨"hello", "hi", 0⟩
      (by decide) (by decide) (by decide)).1 (by decide)
  · exact (c2_auto_response_gate (-100) sampleEnv ⟨[], [], [⟨"ping", "pong", 1⟩], []⟩
      ⟨500, 42, none, sampleUser, .text "ping"⟩ "ping" ⟨"ping", "pong", 1⟩
      (by decide) (by decide) (by decide)).2 (by decide) (by decide)
      ⟨[⟨42, 7, false⟩], [], [⟨"ping", "pong", 1⟩], []⟩ 7
      [Effect.logInfo ("Creating a new thread for user " ++ toString (42 : Int)),
       Effect.createForumTopic (-100) "Alice",
       Effect.sendMessage (-100) (some 7) (Main.identityCard sampleUser),
       Effect.pinChatMessage (-100) 99] (by decide)

/-- Claim C10: a message posted inside a group thread whose thread_id has no
`topics` row is not forwarded anywhere and mutates no store row; the bot
posts the "Chat not found, please remove this topic manually" notice into
the same thread and closes the forum topic remotely. -/
theorem c10_group_thread_without_topic (g : Int) (env : Main.MsgEnv)
    (store : Store) (m : Msg) (tid : Int)
    (hchat : m.chat_id = g) (hthread : m.message_thread_id = some tid)
    (hfind : store.topics.find? (fun t => t.thread_id == tid) = none) :
    Main.handle_messages g env store m =
      (store,
       [Effect.sendMessage g (some tid) "Chat not found, please remove this topic manually",
        Effect.closeForumTopic g tid]) := by
  simp [Main.handle_messages, hthread, hchat, hfind]

/-- Witness for C10: a text message in group thread 9 with no matching
topic. -/
theorem c10_witness :
    Main.handle_messages (-100) sampleEnv ⟨[⟨42, 7, false⟩], [], [], []⟩
        ⟨600, -100, some 9, sampleUser, .text "who"⟩ =
      (⟨[⟨42, 7, false⟩], [], [], []⟩,
       [Effect.sendMessage (-100) (some 9) "Chat not found, please remove this topic manually",
        Effect.closeForumTopic (-100) 9]) :=
  c10_group_thread_without_topic (-100) sampleEnv ⟨[⟨42, 7, false⟩], [], [], []⟩
    ⟨600, -100, some 9, sampleUser, .text "who"⟩ 9 (by decide) (by decide) (by decide)

/-- Claim C3: when exactly one of thread_id/user_id is given and a matching
Topic exists (with the real, nonzero Telegram ids), `terminate_thread`
deletes the Topic row, deletes all Message Pair rows of that thread,
invalidates both lookup-cache keys, emits the remote forum-thread deletion
attempt, and produces the same local state whether the remote deletion
succeeds or fails. -/
theorem c3_terminate_thread_state (g : Int) (st : TState) (remoteOk : Bool) :
    (∀ T t, st.store.topics.find? (fun x => x.thread_id == T) = some t →
      t.user_id ≠ 0 → T ≠ 0 →
      ∀ res, CommandHandler.terminate_thread g st (some T) none remoteOk = res →
      res.1.store.topics = st.store.topics.filter (fun x => x.thread_id != T) ∧
      res.1.store.messages = st.store.messages.filter (fun p => p.topic_id != T) ∧
      s!"chat_{t.user_id}_threadid" ∉ res.1.cache ∧
      s!"threadid_{T}_userid" ∉ res.1.cache ∧
      Effect.deleteForumTopic g T remoteOk ∈ res.2 ∧
      (CommandHandler.terminate_thread g st (some T) none true).1 =
        (CommandHandler.terminate_thread g st (some T) none false).1) ∧
    (∀ u t, st.store.topics.find? (fun x => x.user_id == u) = some t →
      u ≠ 0 → t.thread_id ≠ 0 →
      ∀ res, CommandHandler.terminate_thread g st none (some u) remoteOk = res →
      res.1.store.topics = st.store.topics.filter (fun x => x.user_id != u) ∧
      res.1.store.messages = st.store.messages.filter (fun p => p.topic_id != t.thread_id) ∧
      s!"chat_{u}_threadid" ∉ res.1.cache ∧
      s!"threadid_{t.thread_id}_userid" ∉ res.1.cache ∧
      Effect.deleteForumTopic g t.thread_id remoteOk ∈ res.2 ∧
      (CommandHandler.terminate_thread g st none (some u) true).1 =
        (CommandHandler.terminate_thread g st none (some u) false).1) := by
  constructor
  · intro T t hfind hu hT res hres
    subst hres
    simp [CommandHandler.terminate_thread, CommandHandler.terminate_finish,
      hfind, hu, hT, List.mem_filter]
  · intro u t hfind hu hT res hres
    subst hres
    simp [CommandHandler.terminate_thread, CommandHandler.terminate_finish,
      hfind, hu, hT, List.mem_filter]

/-- Concrete pre-termination state used by the C3 witness: user 42 owns
thread 7, two message pairs exist, both cache keys are populated. -/
def tStateA : TState :=
  ⟨⟨[⟨42, 7, false⟩], [⟨50, 80, 7, false⟩, ⟨51, 81, 9, true⟩], [], []⟩,
   ["chat_42_threadid", "threadid_7_userid"]⟩

/-- Witness for C3: terminating thread 7 of user 42 by thread_id with a
failing remote deletion. -/
theorem c3_witness :
    (CommandHandler.terminate_thread (-100) tStateA (some 7) none false).1.store.topics =
      tStateA.store.topics.filter (fun x => x.thread_id != 7) ∧
    (CommandHandler.terminate_thread (-100) tStateA (some 7) none false).1.store.messages =
      tStateA.store.messages.filter (fun p => p.topic_id != 7) ∧
    "chat_42_threadid" ∉ (CommandHandler.terminate_thread (-100) tStateA (some 7) none false).1.cache ∧
    "threadid_7_userid" ∉ (CommandHandler.terminate_thread (-100) tStateA (some 7) none false).1.cache ∧
    Effect.deleteForumTopic (-100) 7 false ∈
      (CommandHandler.terminate_thread (-100) tStateA (some 7) none false).2 ∧
    (CommandHandler.terminate_thread (-100) tStateA (some 7) none true).1 =
      (CommandHandler.terminate_thread (-100) tStateA (some 7) none false).1 :=
  (c3_terminate_thread_state (-100) tStateA false).1 7 ⟨42, 7, false⟩
    (by decide) (by decide) (by decide) _ rfl

/-- Claim C4: a /terminate command that resolves to thread_id = 1 is
rejected with the "Cannot terminate main thread" reply and leaves the state
untouched (no confirm prompt is offered either). -/
theorem c4_terminate_main_thread_rejected (g : Int) (st : TState) (m : Msg)
    (hchat : m.chat_id = g) (hthread : m.message_thread_id = some 1) :
    CommandHandler.handle_terminate g st m true =
      .ok (st, [Effect.replyTo "Cannot terminate main thread"]) := by
  simp [CommandHandler.handle_terminate, CommandHandler.terminate_prompt,
    hchat, hthread]

/-- Witness for C4: an admin /terminate inside the general thread. -/
theorem c4_witness :
    CommandHandler.handle_terminate (-100)
        ⟨⟨[⟨42, 7, false⟩], [], [], []⟩, []⟩
        ⟨700, -100, some 1, sampleUser, .text "/terminate"⟩ true =
      .ok (⟨⟨[⟨42, 7, false⟩], [], [], []⟩, []⟩,
        [Effect.replyTo "Cannot terminate main thread"]) :=
  c4_terminate_main_thread_rejected (-100) ⟨⟨[⟨42, 7, false⟩], [], [], []⟩, []⟩
    ⟨700, -100, some 1, sampleUser, .text "/terminate"⟩ (by decide) (by decide)

/-- Claim C8: after terminating the Topic with thread_id T, the next inbound
message from the same user finds no `topics` row, so the thread-resolution
step creates a fresh Topic whose thread_id is the capability's newly
created forum-thread id, which under the platform's freshness guarantee
differs from T. -/
theorem c8_terminate_then_fresh_thread (g : Int) (st : TState) (T : Int)
    (u : FromUser) (t : Topic) (env : Main.MsgEnv) (nid : Int) (remoteOk : Bool)
    (hfind : st.store.topics.find? (fun x => x.thread_id == T) = some t)
    (huniq : ∀ x ∈ st.store.topics, x.user_id = u.id → x.thread_id = T)
    (hcreate : env.createResult = some nid) (hfresh : nid ≠ T) :
    ∀ st2, (CommandHandler.terminate_thread g st (some T) none remoteOk).1 = st2 →
    st2.store.topics.find? (fun x => x.user_id == u.id) = none ∧
    (∃ s2 effs, Main.resolve_or_create_thread g env st2.store u = some (s2, nid, effs) ∧
      s2.topics = st2.store.topics ++ [⟨u.id, nid, false⟩]) ∧
    nid ≠ T := by
  intro st2 hst2
  have htop : st2.store.topics = st.store.topics.filter (fun x => x.thread_id != T) := by
    rw [← hst2]
    simp only [CommandHandler.terminate_thread, hfind, terminate_finish_topics]
  have hnone : st2.store.topics.find? (fun x => x.user_id == u.id) = none := by
    rw [htop]
    exact topics_find?_user_after_thread_filter _ _ _ huniq
  refine ⟨hnone, ?_, hfresh⟩
  refine ⟨{ st2.store with topics := st2.store.topics ++ [⟨u.id, nid, false⟩] },
    [Effect.logInfo ("Creating a new thread for user " ++ toString u.id),
     Effect.createForumTopic g u.first_name,
     Effect.sendMessage g (some nid) (Main.identityCard u),
     Effect.pinChatMessage g env.identityMsgId], ?_, rfl⟩
  simp [Main.resolve_or_create_thread, hnone, hcreate]

/-- Witness for C8: thread 7 of user 42 is terminated; the next message
creates thread 8 ≠ 7. -/
theorem c8_witness :
    (⟨⟨[], [], [], []⟩, []⟩ : TState).store.topics.find?
        (fun x => x.user_id == sampleUser.id) = none ∧
    (∃ s2 effs, Main.resolve_or_create_thread (-100) ⟨some 8, 123, true⟩
        (⟨⟨[], [], [], []⟩, []⟩ : TState).store sampleUser = some (s2, 8, effs) ∧
      s2.topics = (⟨⟨[], [], [], []⟩, []⟩ : TState).store.topics ++
        [⟨sampleUser.id, 8, false⟩]) ∧
    (8 : Int) ≠ 7 :=
  c8_terminate_then_fresh_thread (-100)
    ⟨⟨[⟨42, 7, false⟩], [], [], []⟩, []⟩ 7 sampleUser ⟨42, 7, false⟩
    ⟨some 8, 123, true⟩ 8 false (by decide)
    (by intro x hx hux; simp at hx; simp [hx]) (by decide) (by decide)
    ⟨⟨[], [], [], []⟩, []⟩ (by decide)

/-- Claim C5, evaluated at the input on which the code and the claim
diverge: an edited non-text message whose Message Pair exists makes
`handle_edit` evaluate `message.text + suffix` with `text = None` before
the content-type guard, raising `TypeError` instead of the no-op the claim
requires. -/
theorem c5_edit_nontext_raises :
    CommandHandler.handle_edit (-100)
        ⟨[⟨42, 7, false⟩], [⟨50, 80, 7, false⟩], [], []⟩
        ⟨50, 42, none, sampleUser, .photo "f1" none⟩ "2024-01-01 00:00:00" =
      .error "TypeError: can only concatenate str (not NoneType)" := by
  rfl

/-- Claim C6: a reaction event matching a Message Pair on either column
resolves to the counterpart message of that pair (the opposite column) and
sets the last reaction of the event's list (clearing when the list is
empty); with no match on either column the handler is a no-op. -/
theorem c6_handle_reaction_counterpart (g : Int) (store : Store)
    (chat_id mid : Int) (rx : List String) :
    (∀ p, store.messages.find? (fun q => q.forwarded_id == mid) = some p →
      ∀ tp, (chat_id = g → store.topics.find? (fun x => x.thread_id == p.topic_id) = some tp) →
      CommandHandler.handle_reaction g store chat_id mid rx =
        [Effect.setMessageReaction (if chat_id = g then tp.user_id else g) p.received_id
          (match rx.getLast? with | some r => [r] | none => [])]) ∧
    (store.messages.find? (fun q => q.forwarded_id == mid) = none →
      ∀ p, store.messages.find? (fun q => q.received_id == mid) = some p →
      ∀ tp, (chat_id = g → store.topics.find? (fun x => x.thread_id == p.topic_id) = some tp) →
      CommandHandler.handle_reaction g store chat_id mid rx =
        [Effect.setMessageReaction (if chat_id = g then tp.user_id else g) p.forwarded_id
          (match rx.getLast? with | some r => [r] | none => [])]) ∧
    (store.messages.find? (fun q => q.forwarded_id == mid) = none →
      store.messages.find? (fun q => q.received_id == mid) = none →
      CommandHandler.handle_reaction g store chat_id mid rx = []) := by
  refine ⟨?_, ?_, ?_⟩
  · intro p hp tp htp
    by_cases hc : chat_id = g
    · simp [CommandHandler.handle_reaction, CommandHandler.reaction_lookup,
        hp, hc, htp hc]
    · simp [CommandHandler.handle_reaction, CommandHandler.reaction_lookup,
        hp, hc]
  · intro hf p hp tp htp
    by_cases hc : chat_id = g
    · simp [CommandHandler.handle_reaction, CommandHandler.reaction_lookup,
        hf, hp, hc, htp hc]
    · simp [CommandHandler.handle_reaction, CommandHandler.reaction_lookup,
        hf, hp, hc]
  · intro hf hr
    simp [CommandHandler.handle_reaction, CommandHandler.reaction_lookup, hf, hr]

/-- Witness for C6: the same pair is resolved from both directions — a
group-side reaction on the forwarded copy targets the user-side original,
and a user-side reaction on the original targets the forwarded copy. -/
theorem c6_witness :
    (CommandHandler.handle_reaction (-100)
        ⟨[⟨42, 7, false⟩], [⟨50, 80, 7, true⟩], [], []⟩ (-100) 80 ["👍", "🔥"] =
      [Effect.setMessageReaction 42 50 ["🔥"]]) ∧
    (CommandHandler.handle_reaction (-100)
        ⟨[⟨42, 7, false⟩], [⟨50, 80, 7, true⟩], [], []⟩ 42 50 [] =
      [Effect.setMessageReaction (-100) 80 []]) := by
  constructor
  · exact (c6_handle_reaction_counterpart (-100)
      ⟨[⟨42, 7, false⟩], [⟨50, 80, 7, true⟩], [], []⟩ (-100) 80 ["👍", "🔥"]).1
      ⟨50, 80, 7, true⟩ (by decide) ⟨42, 7, false⟩ (fun _ => by decide)
  · exact (c6_handle_reaction_counterpart (-100)
      ⟨[⟨42, 7, false⟩], [⟨50, 80, 7, true⟩], [], []⟩ 42 50 []).2.1
      (by decide) ⟨50, 80, 7, true⟩ (by decide) ⟨42, 7, false⟩
      (fun h => absurd h (by decide))

/-- Counterexample to claim C7: a store where message id 5 is some pair's
received_id and another pair's forwarded_id.  The source searches
forwarded_id first, so the forwarded match (counterpart 7) wins, not the
received match (counterpart 9) the claim predicts. -/
theorem c7_counterexample :
    CommandHandler.reaction_lookup
        ⟨[], [⟨5, 9, 10, false⟩, ⟨7, 5, 20, true⟩], [], []⟩ 5 = some (20, 7) ∧
    CommandHandler.reaction_lookup_received_first
        ⟨[], [⟨5, 9, 10, false⟩, ⟨7, 5, 20, true⟩], [], []⟩ 5 = some (10, 9) ∧
    ((20 : Int), (7 : Int)) ≠ ((10 : Int), (9 : Int)) := by
  decide

/-- Claim C7 as amended: reaction propagation searches by forwarded_id
first and only falls back to received_id on a miss, so on a value matching
both columns the forwarded_id match wins the tie-break. -/
theorem c7_reaction_lookup_forwarded_first (store : Store) (mid : Int) :
    (∀ p, store.messages.find? (fun q => q.forwarded_id == mid) = some p →
      CommandHandler.reaction_lookup store mid = some (p.topic_id, p.received_id)) ∧
    (store.messages.find? (fun q => q.forwarded_id == mid) = none →
      ∀ p, store.messages.find? (fun q => q.received_id == mid) = some p →
      CommandHandler.reaction_lookup store mid = some (p.topic_id, p.forwarded_id)) := by
  constructor
  · intro p hp
    simp [CommandHandler.reaction_lookup, hp]
  · intro hf p hp
    simp [CommandHandler.reaction_lookup, hf, hp]

/-- Witness for C7 (amended): on the tie store the forwarded match wins. -/
theorem c7_witness :
    CommandHandler.reaction_lookup
        ⟨[], [⟨5, 9, 10, false⟩, ⟨7, 5, 20, true⟩], [], []⟩ 5 =
      some ((⟨7, 5, 20, true⟩ : MessagePair).topic_id,
            (⟨7, 5, 20, true⟩ : MessagePair).received_id) :=
  (c7_reaction_lookup_forwarded_first
    ⟨[], [⟨5, 9, 10, false⟩, ⟨7, 5, 20, true⟩], [], []⟩ 5).1
    ⟨7, 5, 20, true⟩ (by decide)

/-- Counterexample to claim C9: a payload that fails JSON decoding is a
malformed payload, yet the handler only logs it — the effect trace contains
no visible "Invalid action" reply to the group. -/
theorem c9_counterexample :
    CallbackHandler.handle_callback_query (-100) (-100) 33 (.badJson "not json") =
      .ok [Effect.logError "Invalid JSON data received"] ∧
    (∀ chat thread, Effect.sendMessage chat thread "Invalid action" ∉
      [Effect.logError "Invalid JSON data received"]) := by
  constructor
  · rfl
  · intro chat thread
    simp

/-- Claim C9 as amended: unknown action names are logged and otherwise
ignored; the visible "Invalid action" reply is produced exactly for decoded
payloads whose known action requires an "id" field that is absent
(select_auto_reply, delete_auto_reply, unban_user, select_ban_user);
payloads failing JSON decoding and the literal "null" are only logged and
dropped; a decoded payload without an "action" key raises an uncaught
KeyError. -/
theorem c9_callback_dispatch (g msg_id : Int) (d : CData) (a : String) :
    (d.action = some a → a ∉ CallbackHandler.knownActions → a ≠ "verify_button" →
      CallbackHandler.handle_callback_query g g msg_id (.json d) =
        .ok [Effect.answerCallbackQuery,
             Effect.logError ("Invalid action received" ++ a)]) ∧
    (d.action = some a →
      a ∈ (["select_auto_reply", "delete_auto_reply", "unban_user",
            "select_ban_user"] : List String) →
      d.id = none →
      CallbackHandler.handle_callback_query g g msg_id (.json d) =
        .ok [Effect.answerCallbackQuery, Effect.deleteMessage g msg_id,
             Effect.sendMessage g none "Invalid action"]) ∧
    (CallbackHandler.handle_callback_query g g msg_id .nullStr =
      .ok [Effect.logError "Invalid callback data received"]) ∧
    (∀ raw, CallbackHandler.handle_callback_query g g msg_id (.badJson raw) =
      .ok [Effect.logError "Invalid JSON data received"]) ∧
    (d.action = none →
      CallbackHandler.handle_callback_query g g msg_id (.json d) =
        .error "KeyError: action") := by
  refine ⟨?_, ?_, ?_, ?_, ?_⟩
  · intro hd hk hv
    simp only [CallbackHandler.knownActions, List.mem_cons, List.not_mem_nil,
      or_false, not_or] at hk
    obtain ⟨k1, k2, k3, k4, k5, k6, k7, k8, k9, k10, k11, k12, k13, k14, k15,
      k16, k17, k18, k19, k20, k21, k22⟩ := hk
    simp [CallbackHandler.handle_callback_query, CallbackHandler.admin_callback,
      Except.map, hd, hv, k1, k2, k3, k4, k5, k6, k7, k8, k9, k10, k11, k12,
      k13, k14, k15, k16, k17, k18, k19, k20, k21, k22]
  · intro hd hk hid
    simp only [List.mem_cons, List.not_mem_nil, or_false] at hk
    rcases hk with hk | hk | hk | hk
    all_goals subst hk
    all_goals simp [CallbackHandler.handle_callback_query,
      CallbackHandler.admin_callback, Except.map, hd, hid]
  · rfl
  · intro raw; rfl
  · intro hd
    simp [CallbackHandler.handle_callback_query, hd]

/-- Witness for C9 (amended): an unrecognized action and an id-less
unban_user payload at the group chat. -/
theorem c9_witness :
    (CallbackHandler.handle_callback_query (-100) (-100) 33
        (.json ⟨some "frobnicate", none, none, none, none, none⟩) =
      .ok [Effect.answerCallbackQuery,
           Effect.logError ("Invalid action received" ++ "frobnicate")]) ∧
    (CallbackHandler.handle_callback_query (-100) (-100) 33
        (.json ⟨some "unban_user", none, none, none, none, none⟩) =
      .ok [Effect.answerCallbackQuery, Effect.deleteMessage (-100) 33,
           Effect.sendMessage (-100) none "Invalid action"]) := by
  constructor
  · exact (c9_callback_dispatch (-100) 33
      ⟨some "frobnicate", none, none, none, none, none⟩ "frobnicate").1
      (by decide) (by decide) (by decide)
  · exact (c9_callback_dispatch (-100) 33
      ⟨some "unban_user", none, none, none, none, none⟩ "unban_user").2.1
      (by decide) (by decide) (by decide)
